import Mathlib

/-!
Verification of the langchain-tgi adapter code: the LLaMa-2 prompt formatter
(`HFLlamaFormatter` in `hf_llama2.py` and `Llama2Chat.message2string` in
`hugginface_text_gen_inference.py`) and the `HFChatTGI` inference adapter
(construction, generate/agenerate/stream, response mapping).

The Python code is shallowly embedded: chat messages become a closed inductive
type, fallible Python code (raising `ValueError` / `AttributeError`) returns
`Except PyError`, and awaitables are modelled by a tag distinguishing a
coroutine from an async generator so that `asyncio.run` can be given its real
semantics.
-/

namespace LangchainTGI

/-- A chat message, polymorphic over the langchain message variants.
`other` stands for any `BaseMessage` subclass outside
{SystemMessage, HumanMessage, AIMessage} (e.g. `FunctionMessage`,
`ChatMessage`); it carries the rendering of `type(message)` used in the
error text, plus the content. -/
inductive Message where
  | system (content : String)
  | human (content : String)
  | ai (content : String)
  | other (typeName : String) (content : String)
deriving DecidableEq, Repr

/-- A Python exception, as surfaced by the embedded code. -/
inductive PyError where
  | valueError (msg : String)
  | attributeError (name : String)
deriving DecidableEq, Repr

/-- Whether a message is one of the three variants the formatters support. -/
def Message.supported : Message → Bool
  | .other _ _ => false
  | _ => true

/-- Rendering of the Python list `[SystemMessage, HumanMessage, AIMessage]`
appearing in the error text (the exact rendering is irrelevant to any claim). -/
def supported_types_repr : String :=
  "[SystemMessage, HumanMessage, AIMessage]"

/-- The `ValueError` message both formatters raise on an unsupported message
type, with `typeName` standing for the f-string interpolation of
`type(message)`. -/
def unsupported_message (typeName : String) : String :=
  "Received unsupported message type: " ++ typeName ++
    ".\n Supported message types for the LLaMa-2 Foundation Model: " ++
    supported_types_repr

namespace HFLlamaFormatter

def B_INST : String := "[INST]"
def E_INST : String := "[/INST]"
def B_SYS : String := "<<SYS>>\n"
def E_SYS : String := "\n<</SYS>>\n\n"
def HF_BOS_TOKEN : String := "<s>"
def HF_EOS_TOKEN : String := "</s>"

/-- `HFLlamaFormatter.message2string` (hf_llama2.py lines 32-48): converts one
message to a string, raising `ValueError` on an unsupported type. -/
def message2string : Message → Except PyError String
  | .human c => .ok (HF_BOS_TOKEN ++ B_INST ++ c ++ E_INST)
  | .ai c => .ok (c ++ HF_EOS_TOKEN)
  | .system c => .ok (HF_BOS_TOKEN ++ B_SYS ++ c ++ E_SYS ++ HF_EOS_TOKEN)
  | .other t _ => .error (.valueError (unsupported_message t))

/-- The list comprehension inside `dialog2string`: left-to-right evaluation,
the first unsupported message raises before any string is produced. -/
def messages2strings : List Message → Except PyError (List String)
  | [] => .ok []
  | m :: rest => do
      let s ← message2string m
      let ss ← messages2strings rest
      pure (s :: ss)

/-- `HFLlamaFormatter.dialog2string` (hf_llama2.py lines 50-53):
`join_char.join([message2string(m) for m in dialog])`. -/
def dialog2string (dialog : List Message) (join_char : String := "\n") :
    Except PyError String :=
  (messages2strings dialog).map (fun strs => String.intercalate join_char strs)

end HFLlamaFormatter

/-- Modelled from the spec: the per-variant output template table of section
4.1 (System ↦ BOS SYS_OPEN content SYS_CLOSE EOS, Human ↦ BOS INST_OPEN
content INST_CLOSE, Assistant ↦ content EOS), with the control tokens the
source fixes. The spec table has no row for other variants; the value on
`other` is arbitrary and only reached outside the claim's hypothesis. -/
def spec_template : Message → String
  | .system c => "<s>" ++ "<<SYS>>\n" ++ c ++ "\n<</SYS>>\n\n" ++ "</s>"
  | .human c => "<s>" ++ "[INST]" ++ c ++ "[/INST]"
  | .ai c => c ++ "</s>"
  | .other _ _ => ""

namespace HFLlamaFormatter

theorem message2string_supported (m : Message) (h : m.supported = true) :
    message2string m = .ok (spec_template m) := by
  cases m with
  | system c => rfl
  | human c => rfl
  | ai c => rfl
  | other t c => simp [Message.supported] at h

theorem messages2strings_supported (dialog : List Message)
    (h : ∀ m ∈ dialog, m.supported = true) :
    messages2strings dialog = .ok (dialog.map spec_template) := by
  induction dialog with
  | nil => rfl
  | cons m rest ih =>
      have hm : m.supported = true := h m (List.mem_cons_self m rest)
      have hrest : ∀ x ∈ rest, x.supported = true :=
        fun x hx => h x (List.mem_cons_of_mem m hx)
      rw [messages2strings, message2string_supported m hm, ih hrest]
      rfl

end HFLlamaFormatter

/-- C1: for every dialog of supported messages and every join string, the
formatter output is exactly the per-message fixed templates, in input order,
joined by the join string — no reordering, deduplication, or truncation. -/
theorem c1_format_concat_templates (dialog : List Message) (j : String)
    (h : ∀ m ∈ dialog, m.supported = true) :
    HFLlamaFormatter.dialog2string dialog j =
      .ok (String.intercalate j (dialog.map spec_template)) := by
  rw [HFLlamaFormatter.dialog2string,
    HFLlamaFormatter.messages2strings_supported dialog h]
  rfl

/-- Witness for C1 at the spec's own example `[System "a", Human "b"]`. -/
theorem c1_format_concat_templates_witness :
    (∀ m ∈ [Message.system "a", Message.human "b"], m.supported = true) ∧
    HFLlamaFormatter.dialog2string [Message.system "a", Message.human "b"] "\n" =
      .ok (String.intercalate "\n"
        ([Message.system "a", Message.human "b"].map spec_template)) :=
  ⟨by decide, c1_format_concat_templates _ _ (by decide)⟩

/-- The spec example output, checked concretely: helper fact, not a claim. -/
theorem spec_example_concrete :
    HFLlamaFormatter.dialog2string [Message.system "a", Message.human "b"] "\n" =
      .ok "<s><<SYS>>\na\n<</SYS>>\n\n</s>\n<s>[INST]b[/INST]" := rfl

/-- C9: the formatter applied to the empty dialog returns the empty string,
for every join string. -/
theorem c9_empty_dialog (j : String) :
    HFLlamaFormatter.dialog2string [] j = .ok "" := rfl

/-- C10: the formatter is deterministic — two calls with identical message
sequences and identical join strings return equal outputs (the embedding is a
pure function, so it also has no side effects). -/
theorem c10_deterministic (d₁ d₂ : List Message) (j₁ j₂ : String)
    (hd : d₁ = d₂) (hj : j₁ = j₂) :
    HFLlamaFormatter.dialog2string d₁ j₁ = HFLlamaFormatter.dialog2string d₂ j₂ := by
  rw [hd, hj]

/-- Witness for C10 at a concrete dialog and join string. -/
theorem c10_deterministic_witness :
    HFLlamaFormatter.dialog2string [Message.human "hi"] "\n" =
      HFLlamaFormatter.dialog2string [Message.human "hi"] "\n" :=
  c10_deterministic [Message.human "hi"] [Message.human "hi"] "\n" "\n" rfl rfl

/-!
`Llama2Chat` from `hugginface_text_gen_inference.py`. Its `message2string`
reads `self.HF_BOS_TOKEN`, but the class defines the attribute under the name
`HF_BOS_TOKE` (line 54) and no ancestor in the repository defines
`HF_BOS_TOKEN`; attribute lookup is therefore modelled explicitly, so that a
reference to a missing attribute surfaces as an `AttributeError`, exactly as
the Python would at run time.
-/

namespace Llama2Chat

/-- The string-valued class attributes `Llama2Chat` actually declares
(lines 48-57 of the source); note `HF_BOS_TOKE`, not `HF_BOS_TOKEN`. -/
def class_attrs : List (String × String) :=
  [("B_INST", "[INST]"), ("E_INST", "[/INST]"),
   ("B_SYS", "<<SYS>>\n"), ("E_SYS", "\n<</SYS>>\n\n"),
   ("HF_BOS_TOKE", "<s>"), ("HF_EOS_TOKEN", "</s>"),
   ("join_char", "\n")]

/-- Attribute lookup on a `Llama2Chat` instance: a declared attribute yields
its value, anything else raises `AttributeError`. -/
def getattr (name : String) : Except PyError String :=
  match class_attrs.lookup name with
  | some v => .ok v
  | none => .error (.attributeError name)

/-- `Llama2Chat.message2string` (hugginface_text_gen_inference.py lines
59-77), with each `self.X` access going through `getattr` in the f-string's
left-to-right evaluation order. -/
def message2string (m : Message) : Except PyError String :=
  match m with
  | .human c => do
      let bos ← getattr "HF_BOS_TOKEN"
      let bi ← getattr "B_INST"
      let ei ← getattr "E_INST"
      pure (bos ++ bi ++ c ++ ei)
  | .ai c => do
      let eos ← getattr "HF_EOS_TOKEN"
      pure (c ++ eos)
  | .system c => do
      let bos ← getattr "HF_BOS_TOKEN"
      let bs ← getattr "B_SYS"
      let es ← getattr "E_SYS"
      let eos ← getattr "HF_EOS_TOKEN"
      pure (bos ++ bs ++ c ++ es ++ eos)
  | .other t _ => .error (.valueError (unsupported_message t))

end Llama2Chat

/-- C2: a message whose variant is outside {System, Human, Assistant} makes
both formatters fail with the unsupported-message `ValueError` naming the
offending variant, and `dialog2string` on any dialog containing such a message
(after supported ones) errors without producing any partial prompt; the error
text contains the variant name. -/
theorem c2_unsupported_fails (t c : String) (pre post : List Message) (j : String)
    (h : ∀ m ∈ pre, m.supported = true) :
    HFLlamaFormatter.message2string (.other t c) =
      .error (.valueError (unsupported_message t)) ∧
    Llama2Chat.message2string (.other t c) =
      .error (.valueError (unsupported_message t)) ∧
    HFLlamaFormatter.dialog2string (pre ++ .other t c :: post) j =
      .error (.valueError (unsupported_message t)) ∧
    ∃ a b : String, unsupported_message t = a ++ t ++ b := by
  refine ⟨rfl, rfl, ?_, ?_⟩
  · have : HFLlamaFormatter.messages2strings (pre ++ .other t c :: post) =
        .error (.valueError (unsupported_message t)) := by
      induction pre with
      | nil => rfl
      | cons m rest ih =>
          have hm : m.supported = true := h m (List.mem_cons_self m rest)
          have hrest : ∀ x ∈ rest, x.supported = true :=
            fun x hx => h x (List.mem_cons_of_mem m hx)
          rw [List.cons_append, HFLlamaFormatter.messages2strings,
            HFLlamaFormatter.message2string_supported m hm, ih hrest]
          rfl
    rw [HFLlamaFormatter.dialog2string, this]
    rfl
  · exact ⟨"Received unsupported message type: ",
      ".\n Supported message types for the LLaMa-2 Foundation Model: " ++
        supported_types_repr,
      by rw [unsupported_message]; rw [String.append_assoc, String.append_assoc]⟩

/-- Witness for C2: a `FunctionMessage` after one supported message. -/
theorem c2_unsupported_fails_witness :
    (∀ m ∈ [Message.human "q"], m.supported = true) ∧
    (HFLlamaFormatter.message2string (.other "FunctionMessage" "x") =
      .error (.valueError (unsupported_message "FunctionMessage")) ∧
    Llama2Chat.message2string (.other "FunctionMessage" "x") =
      .error (.valueError (unsupported_message "FunctionMessage")) ∧
    HFLlamaFormatter.dialog2string
        ([Message.human "q"] ++ .other "FunctionMessage" "x" :: []) "\n" =
      .error (.valueError (unsupported_message "FunctionMessage")) ∧
    ∃ a b : String, unsupported_message "FunctionMessage" =
      a ++ "FunctionMessage" ++ b) :=
  ⟨by decide,
    c2_unsupported_fails "FunctionMessage" "x" [Message.human "q"] [] "\n"
      (by decide)⟩

/-- C6 (code bug evaluation): on a Human message the two formatter
implementations disagree — `Llama2Chat.message2string` raises
`AttributeError` for `HF_BOS_TOKEN` (the class declares `HF_BOS_TOKE`),
while `HFLlamaFormatter.message2string` returns the formatted string; the
same happens on System messages, and the misspelt attribute is indeed the
one the class declares. -/
theorem c6_formatters_disagree :
    Llama2Chat.message2string (.human "b") =
      .error (.attributeError "HF_BOS_TOKEN") ∧
    HFLlamaFormatter.message2string (.human "b") = .ok "<s>[INST]b[/INST]" ∧
    Llama2Chat.message2string (.system "s") =
      .error (.attributeError "HF_BOS_TOKEN") ∧
    Llama2Chat.message2string (.ai "a") = .ok "a</s>" ∧
    (Llama2Chat.class_attrs.lookup "HF_BOS_TOKE") = some "<s>" ∧
    (Llama2Chat.class_attrs.lookup "HF_BOS_TOKEN") = none := by
  exact ⟨rfl, rfl, rfl, rfl, by decide, by decide⟩

/-!
The `HFChatTGI` inference adapter from `hf_llama2.py`: the `ClientKwargs`
configuration model, the `tgi_client` pydantic validator together with
`_get_client`, the response-to-`ChatResult` mapping, and the
generate / agenerate / stream methods. Awaitables carry a tag telling a
coroutine from an async generator, giving `asyncio.run` its real acceptance
condition.
-/

/-- `ClientKwargs` (hf_llama2.py lines 56-60). -/
structure ClientKwargs where
  base_url : String
  headers : Option (List (String × String)) := none
  cookies : Option (List (String × String)) := none
  timeout : Int := 10
deriving DecidableEq, Repr

/-- The `text_generation.AsyncClient` constructor arguments, as this layer
sets them. -/
structure AsyncClient where
  base_url : String
  headers : Option (List (String × String)) := none
  cookies : Option (List (String × String)) := none
  timeout : Int := 10
deriving DecidableEq, Repr

/-- `AsyncClient(**client_kwargs.dict())` (hf_llama2.py line 81). -/
def AsyncClient.ofKwargs (k : ClientKwargs) : AsyncClient :=
  ⟨k.base_url, k.headers, k.cookies, k.timeout⟩

/-- `AsyncClient(text_generation_service_url)` (hf_llama2.py line 99): only
the base url is given, the library defaults fill the rest. -/
def AsyncClient.ofUrl (url : String) : AsyncClient :=
  ⟨url, none, none, 10⟩

/-- The dict of previously validated fields the pydantic validator for
`tgi_client` receives: field declaration order puts `client_kwargs` (the only
earlier field) before `tgi_client`, so that is the one key present. -/
structure Values where
  client_kwargs : Option ClientKwargs
deriving DecidableEq, Repr

/-- `values.get(key)`: the dict holds the validated `client_kwargs` under the
key of that field name; any other key is absent. -/
def Values.get (v : Values) (key : String) : Option ClientKwargs :=
  if key = "client_kwargs" then v.client_kwargs else none

/-- `HFChatTGI._get_client` (hf_llama2.py lines 87-99): read the `TGI_URL`
environment variable, raise `ValueError` when unset, otherwise build a client
from that url. -/
def _get_client (env_TGI_URL : Option String) : Except PyError AsyncClient :=
  match env_TGI_URL with
  | none => .error (.valueError
      ("No TGI_URL environment variable found. Please set this to the URL of" ++
       " the TGI service, e.g., http://127.0.0.1:8080 or set the " ++
       " client_kwargs when initializing this model."))
  | some url => .ok (AsyncClient.ofUrl url)

/-- `HFChatTGI.validate_client` (hf_llama2.py lines 75-85), the pydantic
validator for `tgi_client`: note that it queries `values` for the key
`tgi_client_parameters`, while the declared field is named `client_kwargs`. -/
def validate_client (tgi_client : Option AsyncClient) (values : Values)
    (env_TGI_URL : Option String) : Except PyError (Option AsyncClient) :=
  let tgi_client :=
    if tgi_client.isNone && (values.get "tgi_client_parameters").isSome then
      (values.get "tgi_client_parameters").map AsyncClient.ofKwargs
    else tgi_client
  if tgi_client.isNone && (values.get "tgi_client_parameters").isNone then
    (_get_client env_TGI_URL).map some
  else
    .ok tgi_client

/-- C3 (code bug evaluation): constructing the adapter with an explicit
`client_kwargs` base url, no directly supplied client and no `TGI_URL`
environment variable raises the no-TGI_URL `ValueError` instead of using the
explicit configuration, because the validator reads the nonexistent key
`tgi_client_parameters`; with any `values` at all, the key the validator
queries is absent. -/
theorem c3_client_kwargs_ignored :
    (∀ kw : ClientKwargs,
      validate_client none ⟨some kw⟩ none = (_get_client none).map some) ∧
    validate_client none ⟨some ⟨"http://127.0.0.1:8080", none, none, 10⟩⟩ none =
      .error (.valueError
        ("No TGI_URL environment variable found. Please set this to the URL of" ++
         " the TGI service, e.g., http://127.0.0.1:8080 or set the " ++
         " client_kwargs when initializing this model.")) ∧
    (∀ v : Values, v.get "tgi_client_parameters" = none) := by
  exact ⟨fun kw => rfl, rfl, fun v => rfl⟩

/-- C8: with no explicit client and no explicit configuration used, but
`TGI_URL` set, construction succeeds and the resulting client carries exactly
the environment url. -/
theorem c8_env_url_used (url : String) (kw : Option ClientKwargs) :
    validate_client none ⟨kw⟩ (some url) = .ok (some (AsyncClient.ofUrl url)) ∧
    (AsyncClient.ofUrl url).base_url = url :=
  ⟨rfl, rfl⟩

/-- The `details` object of a `text_generation` `Response`; `dict` is its
pydantic serialization into a mapping. -/
structure Details where
  fields : List (String × String)
deriving DecidableEq, Repr

def Details.dict (d : Details) : List (String × String) := d.fields

/-- A `text_generation.types.Response`. -/
structure Response where
  generated_text : String
  details : Details
deriving DecidableEq, Repr

/-- `langchain.schema.ChatGeneration`, as this adapter builds it. -/
structure ChatGeneration where
  message : Message
  generation_info : List (String × String)
deriving DecidableEq, Repr

/-- `langchain.schema.ChatResult`. -/
structure ChatResult where
  generations : List ChatGeneration
deriving DecidableEq, Repr

/-- `HFChatTGI._create_chat_result` (hf_llama2.py lines 181-190). -/
def _create_chat_result (response : Response) : ChatResult :=
  { generations :=
      [{ message := .ai response.generated_text,
         generation_info := response.details.dict }] }

/-- C7: mapping a remote response yields exactly one generation, whose
message content is the response's generated text and whose generation info is
the response's details mapping, verbatim. -/
theorem c7_chat_result_passthrough (r : Response) :
    (_create_chat_result r).generations =
      [{ message := .ai r.generated_text,
         generation_info := r.details.dict }] ∧
    (_create_chat_result r).generations.length = 1 ∧
    r.details.dict = r.details.fields :=
  ⟨rfl, rfl, rfl⟩

/-- What Python hands to `asyncio.run` or `await`: calling an async function
gives a coroutine; calling an async generator function (such as
`AsyncClient.generate_stream`) gives an async generator, not a coroutine. -/
inductive PyAwaitable (α : Type) where
  | coroutine (result : α)
  | asyncGenerator (result : α)

/-- `asyncio.run`: drives a coroutine to completion; on anything that is not
a coroutine it raises (CPython: a ValueError stating a coroutine was
expected). -/
def asyncio_run {α : Type} : PyAwaitable α → Except PyError α
  | .coroutine r => .ok r
  | .asyncGenerator _ => .error (.valueError "a coroutine was expected")

/-- `await` inside a coroutine: well-formed only on a coroutine. -/
def awaited {α : Type} : PyAwaitable α → Except PyError α
  | .coroutine r => .ok r
  | .asyncGenerator _ =>
      .error (.valueError "object async_generator cannot be used in await expression")

/-- Extra keyword arguments forwarded verbatim to the client. -/
abbrev Kwargs := List (String × String)

/-- The `model_kwargs` mapping handed to the content formatter. -/
abbrev ModelKwargs := List (String × String)

/-- The remote service behind the transport: what `tgi_client.generate`
resolves to for a given client, prompt and kwargs. Opaque to this layer. -/
abbrev Net := AsyncClient → String → Kwargs → Response

/-- `self.tgi_client.generate(prompt=prompt, **kwargs)`: calling the async
method yields a coroutine carrying the remote response. -/
def AsyncClient.generate (net : Net) (self : AsyncClient) (prompt : String)
    (kwargs : Kwargs) : PyAwaitable Response :=
  .coroutine (net self prompt kwargs)

/-- An `HFChatTGI` instance, with `content_formatter` modelled as its
`_format_request_payload` method. -/
structure HFChatTGI where
  tgi_client : AsyncClient
  content_formatter : List Message → ModelKwargs → String
  model_kwargs : Option ModelKwargs

/-- `HFChatTGI._call_base` (hf_llama2.py lines 114-136): format the prompt,
then `asyncio.run(self.tgi_client.generate(prompt=prompt, **kwargs))`; note
`stop` is accepted but not forwarded. -/
def _call_base (self : HFChatTGI) (net : Net) (messages : List Message)
    (stop : Option (List String)) (kwargs : Kwargs) : Except PyError Response :=
  let _model_kwargs := self.model_kwargs.getD []
  let prompt := self.content_formatter messages _model_kwargs
  asyncio_run (AsyncClient.generate net self.tgi_client prompt kwargs)

/-- `HFChatTGI._generate` (hf_llama2.py lines 158-179). -/
def _generate (self : HFChatTGI) (net : Net) (messages : List Message)
    (stop : Option (List String)) (kwargs : Kwargs) : Except PyError ChatResult :=
  (_call_base self net messages stop kwargs).map _create_chat_result

/-- `HFChatTGI._agenerate` (hf_llama2.py lines 192-202): formats the prompt
itself and awaits `tgi_client.generate` directly. -/
def _agenerate (self : HFChatTGI) (net : Net) (messages : List Message)
    (stop : Option (List String)) (kwargs : Kwargs) : Except PyError ChatResult := do
  let _model_kwargs := self.model_kwargs.getD []
  let prompt := self.content_formatter messages _model_kwargs
  let response ← awaited (AsyncClient.generate net self.tgi_client prompt kwargs)
  pure (_create_chat_result response)

/-- C4: against an identical remote response (same `net`, same adapter, same
messages, stop list and kwargs), the blocking `_generate` and the awaited
`_agenerate` return equal `ChatResult` values. -/
theorem c4_generate_agenerate_eq (self : HFChatTGI) (net : Net)
    (messages : List Message) (stop : Option (List String)) (kwargs : Kwargs) :
    _generate self net messages stop kwargs =
      _agenerate self net messages stop kwargs := rfl

/-- One incremental `text_generation` `StreamResponse` fragment. -/
structure StreamResponse where
  token_text : String
deriving DecidableEq, Repr

/-- A `langchain` `ChatGenerationChunk`, never actually built by the code. -/
structure ChatGenerationChunk where
  content : String
deriving DecidableEq, Repr

/-- `self.tgi_client.generate_stream(prompt=prompt, **kwargs)`:
`generate_stream` is an async generator function, so the call returns an
async generator over the fragments the mocked remote service emits. -/
def AsyncClient.generate_stream (chunks : List StreamResponse)
    (_self : AsyncClient) (_prompt : String) (_kwargs : Kwargs) :
    PyAwaitable (List StreamResponse) :=
  .asyncGenerator chunks

/-- The `StreamResponse → ChatGenerationChunk` methods `HFChatTGI` defines:
the class defines none (in particular no `_create_chat_generation_chunk`,
though `_stream` calls one by that name). -/
def hfChatTGI_chunk_methods : List (String × (StreamResponse → ChatGenerationChunk)) :=
  []

/-- Method lookup on an `HFChatTGI` instance for a chunk-mapping method:
an undefined name raises `AttributeError`. -/
def getattr_chunk_method (name : String) :
    Except PyError (StreamResponse → ChatGenerationChunk) :=
  match hfChatTGI_chunk_methods.lookup name with
  | some f => .ok f
  | none => .error (.attributeError name)

/-- `HFChatTGI._stream` (hf_llama2.py lines 205-218): format the prompt, run
`asyncio.run` on the value of `generate_stream`, then map each chunk through
`self._create_chat_generation_chunk`; the result is the fragments the caller
would see, or the exception the generator raises. -/
def _stream (self : HFChatTGI) (chunks : List StreamResponse)
    (messages : List Message) (stop : Option (List String)) (kwargs : Kwargs) :
    Except PyError (List ChatGenerationChunk) := do
  let _model_kwargs := self.model_kwargs.getD []
  let prompt := self.content_formatter messages _model_kwargs
  let response ← asyncio_run
    (AsyncClient.generate_stream chunks self.tgi_client prompt kwargs)
  response.mapM (fun chunk => do
    let f ← getattr_chunk_method "_create_chat_generation_chunk"
    pure (f chunk))

/-- C5 (code bug evaluation): with the remote service emitting the fragments
"Hel" then "lo" and completing, `_stream` yields no fragment at all — it
raises at the `asyncio.run` call, because `generate_stream` returns an async
generator, not a coroutine; and even past that point, the per-chunk
`_create_chat_generation_chunk` it invokes is defined nowhere in the class. -/
theorem c5_stream_raises (self : HFChatTGI) (messages : List Message)
    (stop : Option (List String)) (kwargs : Kwargs) :
    _stream self [⟨"Hel"⟩, ⟨"lo"⟩] messages stop kwargs =
      .error (.valueError "a coroutine was expected") ∧
    getattr_chunk_method "_create_chat_generation_chunk" =
      .error (.attributeError "_create_chat_generation_chunk") :=
  ⟨rfl, rfl⟩

end LangchainTGI
